import Mathlib

/-!
Shallow embedding of `AccumulateState.js` (RPG Maker MZ plugin, Triacontane).

The plugin stores, per battler, two JavaScript objects:
  `_stateAccumulations : { stateId -> number }` and
  `_stateImmunity      : { stateId -> integer }`.
Both are lazily created (`clearStateAccumulationsIfNeed`) and mutated by
`accumulateState`, `eraseState`, `removeState`, `removeBattleStates`, and the
`ACCUMULATE` plugin command.  Numbers are modelled as rationals `ℚ`; the two
objects are modelled as association lists wrapped in `Option`, where `none`
mirrors the JavaScript field still being `undefined`.
-/

namespace AccumulateState

/-- Lookup in an association list, mirroring JavaScript object property read
(`obj[key]` gives `undefined` when the key is absent, modelled as `none`). -/
def mget {α : Type} : List (Nat × α) → Nat → Option α
  | [], _ => none
  | (k, v) :: rest, key => if k = key then some v else mget rest key

/-- Update or insert a key in an association list, mirroring a JavaScript
property write `obj[key] = val`. -/
def mset {α : Type} : List (Nat × α) → Nat → α → List (Nat × α)
  | [], key, val => [(key, val)]
  | (k, v) :: rest, key, val =>
      if k = key then (k, val) :: rest else (k, v) :: mset rest key val

/-- Remove a key from an association list, mirroring `delete obj[key]`. -/
def mdel {α : Type} : List (Nat × α) → Nat → List (Nat × α)
  | [], _ => []
  | (k, v) :: rest, key =>
      if k = key then mdel rest key else (k, v) :: mdel rest key

theorem mget_mset_self {α : Type} (m : List (Nat × α)) (k : Nat) (v : α) :
    mget (mset m k v) k = some v := by
  induction m with
  | nil => simp [mget, mset]
  | cons p rest ih =>
    obtain ⟨k0, v0⟩ := p
    by_cases h : k0 = k
    · simp [mget, mset, h]
    · simp [mget, mset, h, ih]

theorem mget_mset_ne {α : Type} (m : List (Nat × α)) (k j : Nat) (v : α)
    (h : k ≠ j) : mget (mset m k v) j = mget m j := by
  induction m with
  | nil => simp [mget, mset, h]
  | cons p rest ih =>
    obtain ⟨k0, v0⟩ := p
    by_cases h0 : k0 = k
    · subst h0; simp [mget, mset, h]
    · by_cases h1 : k0 = j <;> simp [mget, mset, h0, h1, ih, Ne.symm h]

theorem mget_mdel_self {α : Type} (m : List (Nat × α)) (k : Nat) :
    mget (mdel m k) k = none := by
  induction m with
  | nil => simp [mget, mdel]
  | cons p rest ih =>
    obtain ⟨k0, v0⟩ := p
    by_cases h : k0 = k
    · simp [mdel, h, ih]
    · simp [mget, mdel, h, ih]

theorem mget_mdel_ne {α : Type} (m : List (Nat × α)) (k j : Nat)
    (h : k ≠ j) : mget (mdel m k) j = mget m j := by
  induction m with
  | nil => simp [mget, mdel]
  | cons p rest ih =>
    obtain ⟨k0, v0⟩ := p
    by_cases h0 : k0 = k
    · subst h0; simp [mget, mdel, h, ih, Ne.symm h]
    · by_cases h1 : k0 = j <;> simp [mget, mdel, h0, h1, ih, Ne.symm h]

/-- One record of `$dataStates`: the two memo/database flags the plugin reads.
`accumulate` is the truthiness of the `<Accumulate>` memo tag, and
`removeAtBattleEnd` is the database release condition used at battle end. -/
structure StateDef where
  accumulate : Bool
  removeAtBattleEnd : Bool
deriving DecidableEq

/-- The game database environment: `$dataStates`, as a total lookup. -/
structure Env where
  dataStates : Nat → StateDef

/-- The plugin parameters (`param` in the source).  The author-supplied
accumulation formula string is embedded as an optional binary function on the
bound variables `a` (effect value) and `b` (state rate); `none` for the whole
field mirrors the empty parameter string (falsy), and a `none` result of the
function mirrors `eval` throwing an exception. -/
structure Config where
  accumulateFormula : Option (ℚ → ℚ → Option ℚ)
  luckAdjust : Bool
  certainHit : Bool
  immunityRate : ℚ
  resetAccumulateEndBattle : Bool

/-- A battler (`Game_Battler`) with the fields the plugin touches: the active
state ids (`_states`), and the plugin's two lazily-created maps.  `none`
mirrors the JavaScript field being `undefined` (fresh or pre-plugin save). -/
structure Battler where
  states : List Nat
  stateAccumulations : Option (List (Nat × ℚ))
  stateImmunity : Option (List (Nat × Nat))

/-- Engine collaborator `Game_BattlerBase.isStateAffected`:
`this._states.includes(stateId)`. -/
def isStateAffected (b : Battler) (stateId : Nat) : Bool :=
  b.states.contains stateId

/-- Embeds `BattleManager.isStateAccumulate` (src lines 370-372):
`stateId > 0 && !!PluginManagerEx.findMetaValue($dataStates[stateId], 'Accumulate')`. -/
def isStateAccumulate (env : Env) (stateId : Nat) : Bool :=
  decide (0 < stateId) && (env.dataStates stateId).accumulate

/-- Embeds `Game_BattlerBase.clearStateAccumulationsIfNeed` (src lines 178-185):
each of the two maps is created empty only when it does not exist yet. -/
def clearStateAccumulationsIfNeed (b : Battler) : Battler :=
  let b1 := if b.stateAccumulations.isSome then b
            else { b with stateAccumulations := some [] }
  if b1.stateImmunity.isSome then b1 else { b1 with stateImmunity := some [] }

/-- Embeds `Game_BattlerBase.getStateAccumulation` (src lines 246-248):
`this._stateAccumulations[stateId] || 0`. -/
def getStateAccumulation (b : Battler) (stateId : Nat) : ℚ :=
  (mget (b.stateAccumulations.getD []) stateId).getD 0

/-- The raw immunity counter `this._stateImmunity[stateId]`, with the absent
entry (JavaScript `undefined`) read as 0, as every use site of the counter
does (`|| 0` in `accumulateState`, `|| 0` after the arithmetic in
`getStateImmunity`). -/
def stateImmunityCount (b : Battler) (stateId : Nat) : Nat :=
  (mget (b.stateImmunity.getD []) stateId).getD 0

/-- Embeds `Game_BattlerBase.getStateImmunity` (src lines 242-244):
`(this._stateImmunity[stateId] * param.ImmunityRate / 100) || 0`; an absent
counter makes the product `NaN`, which `|| 0` turns into 0, so the absent
entry reads as a zero counter. -/
def getStateImmunity (cfg : Config) (b : Battler) (stateId : Nat) : ℚ :=
  (stateImmunityCount b stateId : ℚ) * cfg.immunityRate / 100

/-- Embeds the patched `Game_BattlerBase.clearStates` (src lines 187-191): the
engine's original `clearStates` empties the active state set (modelled as
`states := []`), then `clearStateAccumulationsIfNeed` runs.  Note the patch
only ensures the two maps exist; it does not empty them. -/
def clearStates (b : Battler) : Battler :=
  clearStateAccumulationsIfNeed { b with states := [] }

/-- Embeds the patched `Game_BattlerBase.eraseState` (src lines 193-198): the
engine's original `eraseState` removes the id from the active set, then the
patch ensures the maps exist and deletes the accumulation entry. -/
def eraseState (b : Battler) (stateId : Nat) : Battler :=
  let b1 := clearStateAccumulationsIfNeed { b with states := b.states.erase stateId }
  { b1 with stateAccumulations := some (mdel (b1.stateAccumulations.getD []) stateId) }

/-- Embeds the patched `Game_Battler.removeState` (src lines 200-205): the
engine's original `removeState` erases the state (through the patched
`eraseState`) when it is affected (its revive-on-death-state and refresh side
effects touch neither map nor the modelled fields), then the patch ensures
the maps exist and deletes the accumulation entry. -/
def removeState (b : Battler) (stateId : Nat) : Battler :=
  let b1 := if isStateAffected b stateId then eraseState b stateId else b
  let b2 := clearStateAccumulationsIfNeed b1
  { b2 with stateAccumulations := some (mdel (b2.stateAccumulations.getD []) stateId) }

/-- Engine collaborator `Game_Battler.addState`, modelled as: put the state id
into the active set when not already present (the engine's `isStateAddable`
side conditions — alive, not state-resisted, not restricted — are taken as
satisfied). -/
def addState (b : Battler) (stateId : Nat) : Battler :=
  if isStateAffected b stateId then b else { b with states := stateId :: b.states }

/-- Embeds `Game_Battler.accumulateState` (src lines 216-227).  Returns the
updated battler and the boolean result of the call. -/
def accumulateState (env : Env) (b0 : Battler) (stateId : Nat) (value : ℚ) :
    Battler × Bool :=
  let b := clearStateAccumulationsIfNeed b0
  if isStateAccumulate env stateId then
    let total := getStateAccumulation b stateId + value
    let b1 : Battler :=
      { b with stateAccumulations := some (mset (b.stateAccumulations.getD []) stateId total) }
    if isStateAffected b1 stateId = false ∧ (1 : ℚ) ≤ total then
      let b2 := addState b1 stateId
      let imm := mset (b2.stateImmunity.getD []) stateId (stateImmunityCount b2 stateId + 1)
      ({ b2 with stateImmunity := some imm }, true)
    else (b1, false)
  else (b, false)

/-- The accumulation-reset step the plugin appends to
`Game_Battler.removeBattleStates` (src lines 232-239): when the
`ResetAccumulateEndBattle` parameter is on, every entry of
`_stateAccumulations` whose state is flagged `removeAtBattleEnd` and whose
value is `> 0` is set to 0; otherwise nothing happens.  The `for..in` loop
over an absent (`undefined`) map iterates zero times, so `none` stays `none`. -/
def resetAccumulationOnBattleEnd (env : Env) (cfg : Config) (b : Battler) : Battler :=
  if cfg.resetAccumulateEndBattle then
    { b with stateAccumulations := b.stateAccumulations.map (fun m =>
        m.map (fun p =>
          if (env.dataStates p.1).removeAtBattleEnd = true ∧ 0 < p.2 then (p.1, 0) else p)) }
  else b

/-- Engine collaborator `Game_Battler.removeBattleStates` (the original, called
through `_Game_Battler_removeBattleStates`), modelled from the host engine: it
removes every active state flagged `removeAtBattleEnd`, going through the
(patched) `removeState`. -/
def engineRemoveBattleStates (env : Env) (b : Battler) : Battler :=
  b.states.foldl
    (fun acc stateId =>
      if (env.dataStates stateId).removeAtBattleEnd then removeState acc stateId else acc)
    b

/-- Embeds the patched `Game_Battler.removeBattleStates` (src lines 229-240):
the engine's original runs first, then the plugin's reset step. -/
def removeBattleStates (env : Env) (cfg : Config) (b : Battler) : Battler :=
  resetAccumulationOnBattleEnd env cfg (engineRemoveBattleStates env b)

/-- Engine collaborator `Number.prototype.clamp` (rmmz core):
`Math.min(Math.max(this, min), max)`. -/
def clamp (x lo hi : ℚ) : ℚ := min (max x lo) hi

/-- Embeds `Game_Action.prototype.applyResistanceForAccumulateState`
(src lines 345-364).  `stateRate` stands for the engine value
`target.stateRate(stateId)` and `lukEffectRate` for `this.lukEffectRate(target)`.
The second component records whether the catch branch ran (buzzer plus console
diagnostic); note that when `eval` throws, the assignment to `effectValue`
never happens, so the incoming value is kept. -/
def applyResistanceForAccumulateState (cfg : Config) (stateRate lukEffectRate : ℚ)
    (target : Battler) (stateId : Nat) (effectValue : ℚ) : ℚ × Bool :=
  let step1 : ℚ × Bool :=
    match cfg.accumulateFormula with
    | some f =>
      match f effectValue stateRate with
      | some v => (v, false)
      | none => (effectValue, true)
    | none => (effectValue * stateRate, false)
  let v2 := if cfg.luckAdjust then step1.1 * lukEffectRate else step1.1
  let v3 := v2 * (1 - getStateImmunity cfg target stateId)
  (clamp v3 0 1, step1.2)

/-- The accumulation delta computed by the patched
`Game_Action.prototype.itemEffectAddNormalState` (src lines 331-343) before it
calls `accumulateState`: the resistance pipeline is applied only when the
action is not a certain hit or the `CertainHit` parameter is off; otherwise
the raw `effect.value1` is used unchanged. -/
def itemEffectAddNormalStateDelta (cfg : Config) (stateRate lukEffectRate : ℚ)
    (certainHitAction : Bool) (target : Battler) (dataId : Nat) (value1 : ℚ) : ℚ :=
  if certainHitAction = false ∨ cfg.certainHit = false then
    (applyResistanceForAccumulateState cfg stateRate lukEffectRate target dataId value1).1
  else value1

/-- Embeds the patched `Game_Action.prototype.itemEffectAddNormalState`
(src lines 331-343) for an accumulative `effect.dataId`; for a
non-accumulative id the source falls through to the engine's original handler,
modelled as a no-op on the battler with a `false` result. -/
def itemEffectAddNormalState (env : Env) (cfg : Config) (stateRate lukEffectRate : ℚ)
    (certainHitAction : Bool) (target : Battler) (dataId : Nat) (value1 : ℚ) :
    Battler × Bool :=
  if isStateAccumulate env dataId then
    accumulateState env target dataId
      (itemEffectAddNormalStateDelta cfg stateRate lukEffectRate certainHitAction target dataId value1)
  else (target, false)

/-- Embeds the effect of the `ACCUMULATE` plugin command (src lines 163-172) on
one resolved battler: `battler.accumulateState(args.stateId, args.rate / 100)`,
where the `rate` argument is an integer in `[-100, 100]`. -/
def accumulateCommandOnBattler (env : Env) (b : Battler) (stateId : Nat) (rate : ℤ) :
    Battler × Bool :=
  accumulateState env b stateId ((rate : ℚ) / 100)

/-- Modelled from the spec: `computeDelta` as section 4.1 of the specification
describes it — custom formula (a failure treated as 0), else base times
effectiveness with the effectiveness skipped on a certain hit with the
override on; then luck, then multiplication by `(1 - resistance)`, then the
final clamp to `[0, 1]`.  This definition follows the specification's words
and exists to be compared with the pipeline derived from the source. -/
def computeDelta_spec (cfg : Config) (baseInfliction targetEffectiveness luckFactor resistance : ℚ)
    (certainHitAction : Bool) : ℚ :=
  let r0 :=
    match cfg.accumulateFormula with
    | some f => (f baseInfliction targetEffectiveness).getD 0
    | none =>
      if certainHitAction = true ∧ cfg.certainHit = true then baseInfliction
      else baseInfliction * targetEffectiveness
  let r1 := if cfg.luckAdjust then r0 * luckFactor else r0
  clamp (r1 * (1 - resistance)) 0 1

theorem clearIfNeed_states (b : Battler) :
    (clearStateAccumulationsIfNeed b).states = b.states := by
  unfold clearStateAccumulationsIfNeed
  cases h : b.stateAccumulations <;> cases h2 : b.stateImmunity <;> simp [h, h2]

theorem clearIfNeed_getAcc (b : Battler) (j : Nat) :
    getStateAccumulation (clearStateAccumulationsIfNeed b) j = getStateAccumulation b j := by
  unfold clearStateAccumulationsIfNeed getStateAccumulation
  cases h : b.stateAccumulations <;> cases h2 : b.stateImmunity <;> simp [h, h2, mget]

theorem clearIfNeed_getImm (b : Battler) (j : Nat) :
    stateImmunityCount (clearStateAccumulationsIfNeed b) j = stateImmunityCount b j := by
  unfold clearStateAccumulationsIfNeed stateImmunityCount
  cases h : b.stateAccumulations <;> cases h2 : b.stateImmunity <;> simp [h, h2, mget]

theorem accumulateState_not_accumulative (env : Env) (b : Battler) (sid : Nat) (v : ℚ)
    (h : isStateAccumulate env sid = false) :
    accumulateState env b sid v = (clearStateAccumulationsIfNeed b, false) := by
  unfold accumulateState
  simp [h]

theorem isStateAffected_clearIfNeed (b : Battler) (sid : Nat) :
    isStateAffected (clearStateAccumulationsIfNeed b) sid = isStateAffected b sid := by
  unfold isStateAffected
  rw [clearIfNeed_states]

theorem clearIfNeed_accD (b : Battler) :
    (clearStateAccumulationsIfNeed b).stateAccumulations.getD [] =
      b.stateAccumulations.getD [] := by
  unfold clearStateAccumulationsIfNeed
  cases h : b.stateAccumulations <;> cases h2 : b.stateImmunity <;> simp [h, h2]

theorem clearIfNeed_immD (b : Battler) :
    (clearStateAccumulationsIfNeed b).stateImmunity.getD [] =
      b.stateImmunity.getD [] := by
  unfold clearStateAccumulationsIfNeed
  cases h : b.stateAccumulations <;> cases h2 : b.stateImmunity <;> simp [h, h2]

theorem accumulateState_no_activation (env : Env) (b : Battler) (sid : Nat) (v : ℚ)
    (h : isStateAccumulate env sid = true)
    (hna : ¬ (isStateAffected b sid = false ∧ (1 : ℚ) ≤ getStateAccumulation b sid + v)) :
    accumulateState env b sid v =
      ({ clearStateAccumulationsIfNeed b with
          stateAccumulations :=
            some (mset (b.stateAccumulations.getD []) sid (getStateAccumulation b sid + v)) },
       false) := by
  unfold accumulateState
  simp only [h, if_true]
  rw [clearIfNeed_getAcc, clearIfNeed_accD]
  rw [if_neg]
  intro hc
  exact hna ⟨by rw [← isStateAffected_clearIfNeed b sid]; exact hc.1, hc.2⟩

theorem accumulateState_activation (env : Env) (b : Battler) (sid : Nat) (v : ℚ)
    (h : isStateAccumulate env sid = true)
    (hna : isStateAffected b sid = false) (hge : (1 : ℚ) ≤ getStateAccumulation b sid + v) :
    accumulateState env b sid v =
      ({ states := sid :: b.states,
         stateAccumulations :=
           some (mset (b.stateAccumulations.getD []) sid (getStateAccumulation b sid + v)),
         stateImmunity :=
           some (mset (b.stateImmunity.getD []) sid (stateImmunityCount b sid + 1)) },
       true) := by
  have hna2 : b.states.contains sid = false := hna
  unfold accumulateState
  simp only [h, if_true]
  rw [clearIfNeed_getAcc, clearIfNeed_accD]
  rw [if_pos]
  · simp only [addState, isStateAffected, clearIfNeed_states, hna2, Bool.false_eq_true,
      if_false, stateImmunityCount, clearIfNeed_immD]
  · exact ⟨by simpa [isStateAffected, clearIfNeed_states] using hna2, hge⟩

theorem eraseState_getAcc_self (b : Battler) (sid : Nat) :
    getStateAccumulation (eraseState b sid) sid = 0 := by
  unfold eraseState getStateAccumulation
  simp [mget_mdel_self]

theorem eraseState_immD (b : Battler) (sid : Nat) :
    (eraseState b sid).stateImmunity.getD [] = b.stateImmunity.getD [] := by
  unfold eraseState
  simp [clearIfNeed_immD]

theorem removeState_getAcc_self (b : Battler) (sid : Nat) :
    getStateAccumulation (removeState b sid) sid = 0 := by
  unfold removeState getStateAccumulation
  simp [mget_mdel_self]

theorem removeState_immD (b : Battler) (sid : Nat) :
    (removeState b sid).stateImmunity.getD [] = b.stateImmunity.getD [] := by
  unfold removeState
  by_cases h : isStateAffected b sid = true <;>
    simp [h, clearIfNeed_immD, eraseState_immD]

theorem foldlRemove_immD (env : Env) (l : List Nat) (b : Battler) :
    ((l.foldl
        (fun acc stateId =>
          if (env.dataStates stateId).removeAtBattleEnd then removeState acc stateId else acc)
        b).stateImmunity.getD []) = b.stateImmunity.getD [] := by
  induction l generalizing b with
  | nil => rfl
  | cons x rest ih =>
    rw [List.foldl_cons, ih]
    by_cases h : (env.dataStates x).removeAtBattleEnd = true <;>
      simp [h, removeState_immD]

theorem engineRemoveBattleStates_immD (env : Env) (b : Battler) :
    (engineRemoveBattleStates env b).stateImmunity.getD [] = b.stateImmunity.getD [] := by
  unfold engineRemoveBattleStates
  exact foldlRemove_immD env b.states b

theorem reset_imm (env : Env) (cfg : Config) (b : Battler) :
    (resetAccumulationOnBattleEnd env cfg b).stateImmunity = b.stateImmunity := by
  unfold resetAccumulationOnBattleEnd
  by_cases h : cfg.resetAccumulateEndBattle = true <;> simp [h]

theorem removeBattleStates_immD (env : Env) (cfg : Config) (b : Battler) :
    (removeBattleStates env cfg b).stateImmunity.getD [] = b.stateImmunity.getD [] := by
  unfold removeBattleStates
  rw [reset_imm, engineRemoveBattleStates_immD]

theorem mget_resetMap (env : Env) (m : List (Nat × ℚ)) (k : Nat) :
    mget (m.map (fun p =>
        if (env.dataStates p.1).removeAtBattleEnd = true ∧ 0 < p.2 then (p.1, 0) else p)) k
      = (mget m k).map (fun v =>
          if (env.dataStates k).removeAtBattleEnd = true ∧ 0 < v then 0 else v) := by
  induction m with
  | nil => rfl
  | cons p rest ih =>
    obtain ⟨k0, v0⟩ := p
    simp only [List.map_cons]
    by_cases hc : (env.dataStates k0).removeAtBattleEnd = true ∧ 0 < v0
    · rw [if_pos hc]
      by_cases hk : k0 = k
      · subst hk
        simp [mget, hc]
      · simp [mget, hk, ih]
    · rw [if_neg hc]
      by_cases hk : k0 = k
      · subst hk
        simp [mget, hc]
      · simp [mget, hk, ih]

theorem reset_getAcc (env : Env) (cfg : Config) (b : Battler) (sid : Nat) :
    getStateAccumulation (resetAccumulationOnBattleEnd env cfg b) sid =
      if cfg.resetAccumulateEndBattle = true ∧ (env.dataStates sid).removeAtBattleEnd = true
          ∧ 0 < getStateAccumulation b sid
      then 0 else getStateAccumulation b sid := by
  by_cases hflag : cfg.resetAccumulateEndBattle = true
  · unfold resetAccumulationOnBattleEnd getStateAccumulation
    simp only [hflag, if_true, true_and]
    cases hm : b.stateAccumulations with
    | none => simp [mget, ite_self]
    | some m =>
      simp only [Option.map_some', Option.getD_some]
      rw [mget_resetMap]
      cases hv : mget m sid with
      | none => simp [ite_self]
      | some v =>
        simp only [Option.map_some', Option.getD_some]
  · unfold resetAccumulationOnBattleEnd
    simp [hflag]

/-- A small game database for concrete evaluations: state 3 is accumulative
and released at battle end, state 4 is accumulative but kept at battle end,
every other id is an ordinary state. -/
def envW : Env :=
  ⟨fun sid =>
    if sid = 3 then ⟨true, true⟩
    else if sid = 4 then ⟨true, false⟩
    else ⟨false, false⟩⟩

/-- A battler with some accumulation toward states 3 and 4 and one past
trigger of state 3. -/
def bW : Battler := ⟨[], some [(3, 1/2), (4, 3/5)], some [(3, 1)]⟩

/-- A battler with freshly initialized, empty maps. -/
def bEmpty : Battler := ⟨[], some [], some []⟩

/-- A battler on whom state 3 is currently active. -/
def bAff : Battler := ⟨[3], some [(3, 6/5)], some [(3, 1)]⟩

/-- A battler with state 3 active, accumulation entries for 3 and 4, and no
recorded triggers. -/
def bBtl : Battler := ⟨[3], some [(3, 1/2), (4, 3/5)], some []⟩

/-- A battler whose state 3 has triggered twice. -/
def bTwo : Battler := ⟨[], some [], some [(3, 2)]⟩

/-- A battler part-way toward state 3. -/
def bQuarter : Battler := ⟨[], some [(3, 1/4)], some []⟩

/-- Default-like parameters: no formula, no luck correction, no certain-hit
override, no immunity growth, no battle-end reset. -/
def cfgPlain : Config := ⟨none, false, false, 0, false⟩

/-- Parameters with luck correction and the certain-hit override on. -/
def cfgCH : Config := ⟨none, true, true, 0, false⟩

/-- Parameters with luck correction, certain-hit override, and a 50 percent
per-trigger immunity rate. -/
def cfgHalf : Config := ⟨none, true, true, 50, false⟩

/-- Parameters whose accumulation formula always fails to evaluate (an
`eval` exception, such as a syntax error in the author's expression). -/
def cfgBad : Config := ⟨some (fun _ _ => none), false, false, 0, false⟩

/-- Parameters with the formula `a - 3` and a 100 percent per-trigger
immunity rate. -/
def cfgNegF : Config := ⟨some (fun a _ => some (a - 3)), false, false, 100, false⟩

/-- Parameters with a 100 percent per-trigger immunity rate and no formula. -/
def cfgHundred : Config := ⟨none, false, false, 100, false⟩

/-- Parameters with only the battle-end reset enabled. -/
def cfgReset : Config := ⟨none, false, false, 0, true⟩

/-- C1: `accumulateState(stateId, delta)` adds `delta` to the stored
accumulation for that state (a missing entry read as 0) and returns true
exactly when the state is accumulative, the battler does not already have it
active, and the new running total is at least 1.0; in that case the state is
added to the active set and the immunity counter for it increments by 1.  For
a non-accumulative state the call is a no-op on the stored values and returns
false. -/
theorem C1_accumulateState_contract (env : Env) (b : Battler) (sid : Nat) (v : ℚ) :
    (isStateAccumulate env sid = false →
      (accumulateState env b sid v).2 = false
      ∧ (∀ j, getStateAccumulation (accumulateState env b sid v).1 j = getStateAccumulation b j)
      ∧ (∀ j, stateImmunityCount (accumulateState env b sid v).1 j = stateImmunityCount b j)
      ∧ (accumulateState env b sid v).1.states = b.states)
    ∧ (isStateAccumulate env sid = true →
      getStateAccumulation (accumulateState env b sid v).1 sid = getStateAccumulation b sid + v
      ∧ ((accumulateState env b sid v).2 = true ↔
          isStateAffected b sid = false ∧ (1 : ℚ) ≤ getStateAccumulation b sid + v)
      ∧ ((accumulateState env b sid v).2 = true →
          isStateAffected (accumulateState env b sid v).1 sid = true
          ∧ stateImmunityCount (accumulateState env b sid v).1 sid =
              stateImmunityCount b sid + 1)) := by
  constructor
  · intro h
    rw [accumulateState_not_accumulative env b sid v h]
    exact ⟨rfl, fun j => clearIfNeed_getAcc b j, fun j => clearIfNeed_getImm b j,
      clearIfNeed_states b⟩
  · intro h
    by_cases hact : isStateAffected b sid = false ∧ (1 : ℚ) ≤ getStateAccumulation b sid + v
    · obtain ⟨hna, hge⟩ := hact
      rw [accumulateState_activation env b sid v h hna hge]
      refine ⟨?_, ?_, fun _ => ⟨?_, ?_⟩⟩
      · unfold getStateAccumulation
        simp [mget_mset_self]
      · simp [hna, hge]
      · unfold isStateAffected
        simp
      · unfold stateImmunityCount
        simp [mget_mset_self]
    · rw [accumulateState_no_activation env b sid v h hact]
      refine ⟨?_, ?_, ?_⟩
      · unfold getStateAccumulation
        simp [mget_mset_self]
      · simp [hact]
      · intro hfalse
        simp at hfalse

/-- Witness for C1 at a concrete input: state 3 is accumulative for `envW`,
and accumulating 3/4 on top of the stored 1/2 crosses the threshold, so the
call returns true. -/
theorem C1_witness :
    isStateAccumulate envW 3 = true
    ∧ getStateAccumulation (accumulateState envW bW 3 (3/4)).1 3 =
        getStateAccumulation bW 3 + 3/4
    ∧ (accumulateState envW bW 3 (3/4)).2 = true := by
  have hget : getStateAccumulation bW 3 = 1/2 := rfl
  refine ⟨rfl, ((C1_accumulateState_contract envW bW 3 (3/4)).2 rfl).1, ?_⟩
  rw [((C1_accumulateState_contract envW bW 3 (3/4)).2 rfl).2.1, hget]
  exact ⟨rfl, by norm_num⟩

theorem clamp_of_mem (x : ℚ) (h0 : 0 ≤ x) (h1 : x ≤ 1) : clamp x 0 1 = x := by
  unfold clamp
  rw [max_eq_left h0, min_eq_left h1]

theorem clamp_ge_one (x : ℚ) (h : 1 ≤ x) : clamp x 0 1 = 1 := by
  unfold clamp
  rw [max_eq_left (le_trans zero_le_one h), min_eq_right h]

theorem clamp_nonpos (x : ℚ) (h : x ≤ 0) : clamp x 0 1 = 0 := by
  unfold clamp
  rw [max_eq_right h, min_eq_left zero_le_one]

theorem applyResistance_bounds (cfg : Config) (sr luk : ℚ) (b : Battler) (sid : Nat)
    (v : ℚ) :
    0 ≤ (applyResistanceForAccumulateState cfg sr luk b sid v).1
    ∧ (applyResistanceForAccumulateState cfg sr luk b sid v).1 ≤ 1 := by
  unfold applyResistanceForAccumulateState clamp
  exact ⟨le_min (le_max_right _ _) zero_le_one, min_le_right _ _⟩

theorem applyResistance_evalFail (cfg : Config) (f : ℚ → ℚ → Option ℚ) (sr luk : ℚ)
    (b : Battler) (sid : Nat) (v : ℚ)
    (hf : cfg.accumulateFormula = some f) (hfail : f v sr = none) :
    applyResistanceForAccumulateState cfg sr luk b sid v =
      (clamp ((if cfg.luckAdjust then v * luk else v) * (1 - getStateImmunity cfg b sid)) 0 1,
       true) := by
  unfold applyResistanceForAccumulateState
  rw [hf]
  simp [hfail]

/-- C2 counterexample: with a certain-hit action and the `CertainHit` override
parameter on, `itemEffectAddNormalState` passes the raw `effect.value1` to
`accumulateState` with no clamp at all: an infliction value of 2 arrives as a
delta of 2, outside `[0, 1]`, and the stored total jumps from 1/2 to 5/2. -/
theorem C2_counterexample :
    itemEffectAddNormalStateDelta cfgCH 1 1 true bW 3 2 = 2
    ∧ ¬ (itemEffectAddNormalStateDelta cfgCH 1 1 true bW 3 2 ≤ 1)
    ∧ getStateAccumulation (itemEffectAddNormalState envW cfgCH 1 1 true bW 3 2).1 3 = 5/2 := by
  have hd : itemEffectAddNormalStateDelta cfgCH 1 1 true bW 3 2 = 2 := rfl
  have hget : getStateAccumulation bW 3 = 1/2 := rfl
  refine ⟨hd, by rw [hd]; norm_num, ?_⟩
  have hpipe : itemEffectAddNormalState envW cfgCH 1 1 true bW 3 2 =
      accumulateState envW bW 3 2 := rfl
  rw [hpipe, accumulateState_activation envW bW 3 2 rfl rfl (by rw [hget]; norm_num)]
  unfold getStateAccumulation
  simp only [Option.getD_some, mget_mset_self]
  norm_num [bW, mget]

/-- C2 amended: whenever the resistance pipeline is applied — that is, unless
the action is a certain hit with the `CertainHit` override on — the delta the
pipeline passes to `accumulateState` is clamped into `[0, 1]` as the final
step; in the excepted certain-hit case the delta is the raw `value1`,
unclamped. -/
theorem C2_amended_delta_range (cfg : Config) (sr luk : ℚ) (ch : Bool) (b : Battler)
    (sid : Nat) (v1 : ℚ) :
    (ch = false ∨ cfg.certainHit = false →
      0 ≤ itemEffectAddNormalStateDelta cfg sr luk ch b sid v1
      ∧ itemEffectAddNormalStateDelta cfg sr luk ch b sid v1 ≤ 1)
    ∧ (ch = true ∧ cfg.certainHit = true →
      itemEffectAddNormalStateDelta cfg sr luk ch b sid v1 = v1) := by
  constructor
  · intro h
    unfold itemEffectAddNormalStateDelta
    rw [if_pos h]
    exact applyResistance_bounds cfg sr luk b sid v1
  · rintro ⟨h1, h2⟩
    unfold itemEffectAddNormalStateDelta
    rw [if_neg]
    simp [h1, h2]

/-- Witness for the amended C2 at concrete inputs: a non-certain action with a
raw value of 3 comes out of the pipeline inside `[0, 1]`. -/
theorem C2_witness :
    0 ≤ itemEffectAddNormalStateDelta cfgPlain 2 1 false bEmpty 3 3
    ∧ itemEffectAddNormalStateDelta cfgPlain 2 1 false bEmpty 3 3 ≤ 1 :=
  (C2_amended_delta_range cfgPlain 2 1 false bEmpty 3 3).1 (Or.inl rfl)

/-- C3 counterexample: on a certain hit with the override on, the code yields
the raw infliction value 4/5; the claim's prescription — skip only the
effectiveness but still apply luck (1/2), resistance (1/2) and the clamp —
would give 1/5. -/
theorem C3_counterexample :
    itemEffectAddNormalStateDelta cfgHalf 1 (1/2) true bW 3 (4/5) = 4/5
    ∧ computeDelta_spec cfgHalf (4/5) 1 (1/2) (getStateImmunity cfgHalf bW 3) true = 1/5
    ∧ (4/5 : ℚ) ≠ 1/5 := by
  refine ⟨rfl, ?_, by norm_num⟩
  have himm : getStateImmunity cfgHalf bW 3 = 1/2 := by
    unfold getStateImmunity stateImmunityCount
    norm_num [bW, cfgHalf, mget]
  rw [himm]
  unfold computeDelta_spec
  norm_num [cfgHalf]
  rw [clamp_of_mem] <;> norm_num

/-- C3 amended: when the action is a certain hit and the `CertainHit` override
parameter is on, the pipeline skips `applyResistanceForAccumulateState`
entirely: the delta is the raw base infliction value, with the effectiveness,
the luck adjustment, the resistance multiplication and the clamp all
omitted. -/
theorem C3_amended_certainHit_raw (env : Env) (cfg : Config) (sr luk : ℚ) (b : Battler)
    (sid : Nat) (v1 : ℚ) (hch : cfg.certainHit = true) :
    itemEffectAddNormalStateDelta cfg sr luk true b sid v1 = v1
    ∧ (isStateAccumulate env sid = true →
        itemEffectAddNormalState env cfg sr luk true b sid v1 =
          accumulateState env b sid v1) := by
  have hd : itemEffectAddNormalStateDelta cfg sr luk true b sid v1 = v1 := by
    unfold itemEffectAddNormalStateDelta
    rw [if_neg]
    simp [hch]
  refine ⟨hd, fun ha => ?_⟩
  unfold itemEffectAddNormalState
  rw [if_pos ha, hd]

/-- Witness for the amended C3 at concrete inputs: with the override on, a
certain hit carries the raw value 7/5 straight through. -/
theorem C3_witness :
    itemEffectAddNormalStateDelta cfgCH 1 1 true bEmpty 3 (7/5) = 7/5 :=
  (C3_amended_certainHit_raw envW cfgCH 1 1 bEmpty 3 (7/5) rfl).1

/-- C4 counterexample: with a formula whose evaluation fails, the call does
not crash and emits the diagnostic, but the resulting delta is the unchanged
incoming value 4/5, not 0 — the failed formula contributes its input, not a
zero. -/
theorem C4_counterexample :
    applyResistanceForAccumulateState cfgBad 1 1 bEmpty 3 (4/5) = (4/5, true)
    ∧ (4/5 : ℚ) ≠ 0 := by
  refine ⟨?_, by norm_num⟩
  rw [applyResistance_evalFail cfgBad (fun _ _ => none) 1 1 bEmpty 3 (4/5) rfl rfl]
  have himm : getStateImmunity cfgBad bEmpty 3 = 0 := by
    unfold getStateImmunity stateImmunityCount
    norm_num [bEmpty, cfgBad, mget]
  rw [himm]
  have hlk : cfgBad.luckAdjust = false := rfl
  rw [hlk]
  norm_num
  rw [clamp_of_mem] <;> norm_num

/-- C4 amended: when the configured formula fails to evaluate, the call
completes (no exception escapes), the diagnostic is emitted, and the effect
value falls back to the unchanged incoming value — the formula step is simply
skipped — after which the luck adjustment, the resistance multiplication and
the final clamp still apply. -/
theorem C4_amended_evalFail_keeps_input (cfg : Config) (f : ℚ → ℚ → Option ℚ)
    (sr luk : ℚ) (b : Battler) (sid : Nat) (v : ℚ)
    (hf : cfg.accumulateFormula = some f) (hfail : f v sr = none) :
    applyResistanceForAccumulateState cfg sr luk b sid v =
      (clamp ((if cfg.luckAdjust then v * luk else v) * (1 - getStateImmunity cfg b sid)) 0 1,
       true) :=
  applyResistance_evalFail cfg f sr luk b sid v hf hfail

/-- Witness for the amended C4 at concrete inputs. -/
theorem C4_witness :
    applyResistanceForAccumulateState cfgBad 1 1 bEmpty 3 (4/5) =
      (clamp ((if cfgBad.luckAdjust then (4/5) * 1 else (4/5))
          * (1 - getStateImmunity cfgBad bEmpty 3)) 0 1,
       true) :=
  C4_amended_evalFail_keeps_input cfgBad (fun _ _ => none) 1 1 bEmpty 3 (4/5) rfl rfl

/-- C5 counterexample: clearing the full status-effect set of a battler whose
maps already hold entries leaves both maps with their previous contents: after
`clearStates`, the accumulation for state 3 is still 1/2 (not 0) and the
immunity counter for state 3 is still 1. -/
theorem C5_counterexample :
    getStateAccumulation (clearStates bW) 3 = 1/2
    ∧ ¬ ((1/2 : ℚ) = 0)
    ∧ stateImmunityCount (clearStates bW) 3 = 1 := by
  refine ⟨rfl, by norm_num, rfl⟩

/-- C5 amended: `clearStates` empties the active state set and ensures the two
maps exist, creating an empty map only for a field that is still absent; a map
that already exists keeps its entire previous content unchanged. -/
theorem C5_amended_clearStates_preserves (b : Battler) :
    ((clearStates b).stateAccumulations).isSome = true
    ∧ ((clearStates b).stateImmunity).isSome = true
    ∧ (b.stateAccumulations = none → (clearStates b).stateAccumulations = some [])
    ∧ (b.stateImmunity = none → (clearStates b).stateImmunity = some [])
    ∧ (∀ m, b.stateAccumulations = some m → (clearStates b).stateAccumulations = some m)
    ∧ (∀ m, b.stateImmunity = some m → (clearStates b).stateImmunity = some m)
    ∧ (clearStates b).states = [] := by
  unfold clearStates clearStateAccumulationsIfNeed
  cases h : b.stateAccumulations <;> cases h2 : b.stateImmunity <;> simp [h, h2]

/-- Witness for the amended C5 at a concrete battler with filled maps. -/
theorem C5_witness :
    (clearStates bW).stateAccumulations = some [(3, 1/2), (4, 3/5)] :=
  (C5_amended_clearStates_preserves bW).2.2.2.2.1 [(3, 1/2), (4, 3/5)] rfl

/-- C6: both removal paths (`eraseState` and `removeState`) zero the stored
accumulation for the removed state (the entry is deleted, so it reads back as
0), and neither changes any immunity counter. -/
theorem C6_removal_zeroes (b : Battler) (sid : Nat) :
    getStateAccumulation (eraseState b sid) sid = 0
    ∧ getStateAccumulation (removeState b sid) sid = 0
    ∧ (∀ j, stateImmunityCount (eraseState b sid) j = stateImmunityCount b j)
    ∧ (∀ j, stateImmunityCount (removeState b sid) j = stateImmunityCount b j) := by
  refine ⟨eraseState_getAcc_self b sid, removeState_getAcc_self b sid, ?_, ?_⟩
  · intro j
    unfold stateImmunityCount
    rw [eraseState_immD]
  · intro j
    unfold stateImmunityCount
    rw [removeState_immD]

/-- C7 counterexample: with the `ResetAccumulateEndBattle` parameter off,
`removeBattleStates` still changes a stored accumulation entry: state 3 is
active and flagged for removal at battle end, so the engine's battle-state
removal goes through the patched `removeState`, which deletes the entry —
its value drops from 1/2 to 0 even though the reset feature is disabled. -/
theorem C7_counterexample :
    cfgPlain.resetAccumulateEndBattle = false
    ∧ getStateAccumulation bBtl 3 = 1/2
    ∧ getStateAccumulation (removeBattleStates envW cfgPlain bBtl) 3 = 0
    ∧ ¬ ((0 : ℚ) = 1/2) := by
  refine ⟨rfl, rfl, rfl, by norm_num⟩

/-- C7 amended: the plugin's battle-end reset step sets to 0 exactly those
stored accumulation entries whose state is flagged remove-at-battle-end and
whose current value is positive, leaving every other entry unchanged, and
with the parameter off the reset step is the identity; the full
`removeBattleStates` is the engine's battle-state removal followed by this
reset step. -/
theorem C7_amended_reset_exact (env : Env) (cfg : Config) (b : Battler) (sid : Nat) :
    getStateAccumulation (resetAccumulationOnBattleEnd env cfg b) sid =
      (if cfg.resetAccumulateEndBattle = true ∧ (env.dataStates sid).removeAtBattleEnd = true
          ∧ 0 < getStateAccumulation b sid
       then 0 else getStateAccumulation b sid)
    ∧ (cfg.resetAccumulateEndBattle = false →
        resetAccumulationOnBattleEnd env cfg b = b)
    ∧ removeBattleStates env cfg b =
        resetAccumulationOnBattleEnd env cfg (engineRemoveBattleStates env b) := by
  refine ⟨reset_getAcc env cfg b sid, fun h => ?_, rfl⟩
  unfold resetAccumulationOnBattleEnd
  simp [h]

/-- Witness for the amended C7: with the parameter off the reset step leaves a
concrete battler untouched, and with it on a flagged positive entry drops to
0 while an unflagged one survives. -/
theorem C7_witness :
    resetAccumulationOnBattleEnd envW cfgPlain bW = bW
    ∧ getStateAccumulation (resetAccumulationOnBattleEnd envW cfgReset bW) 3 = 0
    ∧ getStateAccumulation (resetAccumulationOnBattleEnd envW cfgReset bW) 4 =
        getStateAccumulation bW 4 := by
  refine ⟨(C7_amended_reset_exact envW cfgPlain bW 3).2.1 rfl, ?_, ?_⟩
  · rw [(C7_amended_reset_exact envW cfgReset bW 3).1]
    rw [if_pos]
    refine ⟨rfl, rfl, ?_⟩
    have : getStateAccumulation bW 3 = 1/2 := rfl
    rw [this]; norm_num
  · rw [(C7_amended_reset_exact envW cfgReset bW 4).1]
    rw [if_neg]
    rintro ⟨-, hflag, -⟩
    exact absurd hflag (by norm_num [envW])

/-- C8: once a state is active, `accumulateState` never re-triggers — it
returns false, leaves the active set unchanged, and leaves every immunity
counter unchanged; and no engine operation of the plugin (accumulate, erase,
remove, clear, battle-end removal and reset) ever decreases an immunity
counter. -/
theorem C8_oneShot_monotone (env : Env) (cfg : Config) (b : Battler) (sid : Nat) (v : ℚ) :
    (isStateAffected b sid = true →
      (accumulateState env b sid v).2 = false
      ∧ (accumulateState env b sid v).1.states = b.states
      ∧ (∀ j, stateImmunityCount (accumulateState env b sid v).1 j = stateImmunityCount b j))
    ∧ (∀ j, stateImmunityCount b j ≤ stateImmunityCount (accumulateState env b sid v).1 j)
    ∧ (∀ j, stateImmunityCount (eraseState b sid) j = stateImmunityCount b j)
    ∧ (∀ j, stateImmunityCount (removeState b sid) j = stateImmunityCount b j)
    ∧ (∀ j, stateImmunityCount (clearStates b) j = stateImmunityCount b j)
    ∧ (∀ j, stateImmunityCount (removeBattleStates env cfg b) j = stateImmunityCount b j) := by
  have hAct : ∀ hna : isStateAffected b sid = false,
      ∀ hge : (1 : ℚ) ≤ getStateAccumulation b sid + v,
      isStateAccumulate env sid = true →
      ∀ j, stateImmunityCount b j ≤ stateImmunityCount (accumulateState env b sid v).1 j := by
    intro hna hge h j
    rw [accumulateState_activation env b sid v h hna hge]
    unfold stateImmunityCount
    by_cases hj : sid = j
    · subst hj
      simp [mget_mset_self]
    · simp [mget_mset_ne _ _ _ _ hj]
  constructor
  · intro haff
    by_cases h : isStateAccumulate env sid = true
    · have hna : ¬ (isStateAffected b sid = false ∧ (1 : ℚ) ≤ getStateAccumulation b sid + v) := by
        rintro ⟨h1, -⟩
        rw [haff] at h1
        cases h1
      rw [accumulateState_no_activation env b sid v h hna]
      refine ⟨rfl, clearIfNeed_states b, fun j => ?_⟩
      unfold stateImmunityCount
      rw [clearIfNeed_immD]
    · rw [accumulateState_not_accumulative env b sid v (by simpa using h)]
      exact ⟨rfl, clearIfNeed_states b, fun j => clearIfNeed_getImm b j⟩
  refine ⟨?_, ?_, ?_, ?_, ?_⟩
  · intro j
    by_cases h : isStateAccumulate env sid = true
    · by_cases hact : isStateAffected b sid = false ∧ (1 : ℚ) ≤ getStateAccumulation b sid + v
      · exact hAct hact.1 hact.2 h j
      · rw [accumulateState_no_activation env b sid v h hact]
        have : stateImmunityCount
            ({ clearStateAccumulationsIfNeed b with
                stateAccumulations :=
                  some (mset (b.stateAccumulations.getD []) sid
                    (getStateAccumulation b sid + v)) }) j = stateImmunityCount b j := by
          unfold stateImmunityCount
          rw [clearIfNeed_immD]
        rw [this]
    · rw [accumulateState_not_accumulative env b sid v (by simpa using h)]
      rw [clearIfNeed_getImm b j]
  · intro j
    unfold stateImmunityCount
    rw [eraseState_immD]
  · intro j
    unfold stateImmunityCount
    rw [removeState_immD]
  · intro j
    unfold clearStates stateImmunityCount
    rw [clearIfNeed_immD]
  · intro j
    unfold stateImmunityCount
    rw [removeBattleStates_immD]

/-- Witness for C8 at a concrete battler on whom state 3 is already active:
the call returns false and changes neither the active set nor the counter. -/
theorem C8_witness :
    (accumulateState envW bAff 3 (2/5)).2 = false
    ∧ (accumulateState envW bAff 3 (2/5)).1.states = bAff.states
    ∧ stateImmunityCount (accumulateState envW bAff 3 (2/5)).1 3 = stateImmunityCount bAff 3 := by
  have h := (C8_oneShot_monotone envW cfgPlain bAff 3 (2/5)).1 rfl
  exact ⟨h.1, h.2.1, h.2.2 3⟩

/-- C9 counterexample: with a 100 percent immunity rate, a battler whose state
3 has already triggered twice (so "after at least one activation" holds), and
the formula `a - 3` producing a negative intermediate value, the computed
delta is 1, not 0: the factor `(1 - resistance) = -1` flips the sign and the
clamp lands at the top. -/
theorem C9_counterexample :
    cfgNegF.immunityRate = 100
    ∧ 1 ≤ stateImmunityCount bTwo 3
    ∧ (applyResistanceForAccumulateState cfgNegF 1 1 bTwo 3 (4/5)).1 = 1
    ∧ ¬ ((1 : ℚ) = 0) := by
  refine ⟨rfl, by norm_num [stateImmunityCount, bTwo, mget], ?_, by norm_num⟩
  have himm : getStateImmunity cfgNegF bTwo 3 = 2 := by
    unfold getStateImmunity stateImmunityCount
    norm_num [bTwo, cfgNegF, mget]
  unfold applyResistanceForAccumulateState
  rw [himm]
  have hform : cfgNegF.accumulateFormula = some (fun a _ => some (a - 3)) := rfl
  rw [hform]
  have hlk : cfgNegF.luckAdjust = false := rfl
  rw [hlk]
  norm_num
  rw [clamp_ge_one]
  norm_num

/-- C9 amended: the resistance query returns the immunity counter times the
configured rate over 100 (0 when the entry is absent or the rate is 0), and
with a per-trigger rate of 100, after exactly one activation every delta
computed by `applyResistanceForAccumulateState` is exactly 0. -/
theorem C9_amended_resistance (cfg : Config) (b : Battler) (sid : Nat) (sr luk v : ℚ) :
    getStateImmunity cfg b sid = (stateImmunityCount b sid : ℚ) * cfg.immunityRate / 100
    ∧ (mget (b.stateImmunity.getD []) sid = none → getStateImmunity cfg b sid = 0)
    ∧ (cfg.immunityRate = 0 → getStateImmunity cfg b sid = 0)
    ∧ (cfg.immunityRate = 100 → stateImmunityCount b sid = 1 →
        (applyResistanceForAccumulateState cfg sr luk b sid v).1 = 0) := by
  refine ⟨rfl, ?_, ?_, ?_⟩
  · intro h
    unfold getStateImmunity stateImmunityCount
    rw [h]
    norm_num
  · intro h
    unfold getStateImmunity
    rw [h]
    norm_num
  · intro h100 hc1
    have himm : getStateImmunity cfg b sid = 1 := by
      unfold getStateImmunity
      rw [hc1, h100]
      norm_num
    unfold applyResistanceForAccumulateState
    rw [himm]
    have : (1 : ℚ) - 1 = 0 := by norm_num
    rw [this]
    simp [clamp]

/-- Witness for the amended C9: with rate 100 and one recorded trigger for
state 3, a concrete delta computation gives exactly 0. -/
theorem C9_witness :
    (applyResistanceForAccumulateState cfgHundred 1 1 bW 3 (7/10)).1 = 0 :=
  (C9_amended_resistance cfgHundred bW 3 1 1 (7/10)).2.2.2 rfl rfl

/-- C10: for an accumulative state the stored value is simply the previous
total plus the delta — no floor at 0 is applied to storage — and the
`ACCUMULATE` plugin command reaches `accumulateState` with its `rate`
argument divided by 100. -/
theorem C10_no_floor (env : Env) (b : Battler) (sid : Nat) (v : ℚ) (rate : ℤ)
    (h : isStateAccumulate env sid = true) :
    getStateAccumulation (accumulateState env b sid v).1 sid = getStateAccumulation b sid + v
    ∧ accumulateCommandOnBattler env b sid rate = accumulateState env b sid ((rate : ℚ) / 100) := by
  refine ⟨?_, rfl⟩
  by_cases hact : isStateAffected b sid = false ∧ (1 : ℚ) ≤ getStateAccumulation b sid + v
  · rw [accumulateState_activation env b sid v h hact.1 hact.2]
    unfold getStateAccumulation
    simp [mget_mset_self]
  · rw [accumulateState_no_activation env b sid v h hact]
    unfold getStateAccumulation
    simp [mget_mset_self]

/-- Witness for C10: accumulating a delta of -1/2 (the `ACCUMULATE` command
with rate -50) onto a stored 1/4 leaves the stored value at -1/4, below 0. -/
theorem C10_witness :
    getStateAccumulation (accumulateState envW bQuarter 3 (-(1/2))).1 3 =
      getStateAccumulation bQuarter 3 + (-(1/2))
    ∧ getStateAccumulation bQuarter 3 + (-(1/2)) < 0
    ∧ accumulateCommandOnBattler envW bQuarter 3 (-50) =
        accumulateState envW bQuarter 3 (((-50 : ℤ) : ℚ) / 100) := by
  have h := C10_no_floor envW bQuarter 3 (-(1/2)) (-50) rfl
  refine ⟨h.1, ?_, h.2⟩
  have hq : getStateAccumulation bQuarter 3 = 1/4 := rfl
  rw [hq]
  norm_num

end AccumulateState